import Mathlib

/-!
Verification development for the Multi-Agent-Analyst repository.

Shallow embedding of the two core subsystems:
 - the agent orchestration loop (src/agents/orchestrator.py, src/main.py), and
 - the semantic response cache (src/agents/semantic_cache.py).

External collaborators (the reasoning engine, the three capability adapters,
FAISS similarity search, DynamoDB, MD5) are modelled as explicit function
parameters; machine-level details that no property depends on (exact JSON
indentation of log strings) are rendered compactly.

The modules `state.py`, `schemas.py` and `graph.py` are imported by the
sources but are not part of the source tree given here; the session-state
shape, the decision schema and the graph wiring are modelled from the spec
(sections 2, 3 and 4.1) and from how orchestrator.py accesses them, and are
marked as such below.
-/

namespace MultiAgentAnalyst

/-! ### Association-list model of Python dicts

Python dicts hold each key at most once; we model them as association lists
built only through the operations below, which preserve that discipline.
Removal is modelled by filtering the key out (identical to `dict.pop` on
lists without duplicate keys). -/

def alistGet {α : Type} (m : List (String × α)) (k : String) : Option α :=
  match m with
  | [] => none
  | (k', v) :: t => if k' = k then some v else alistGet t k

def alistSet {α : Type} (m : List (String × α)) (k : String) (v : α) :
    List (String × α) :=
  match m with
  | [] => [(k, v)]
  | (k', v') :: t => if k' = k then (k', v) :: t else (k', v') :: alistSet t k v

def alistPop {α : Type} (m : List (String × α)) (k : String) :
    List (String × α) :=
  m.filter (fun p => p.1 ≠ k)

/-! ### Work-map values

Values stored in the session work map by the embedded code:
strings (rag/db queries), forecasting-payload dicts, and
opaque result objects returned by the external capability adapters. -/

/-- Python dict values that appear in `state.work`.
`vpd h sd` is a forecasting-payload dict: key `"horizon_days" = h`, and the
key `"start_date"` present with value `v` when `sd = some v` (where
`v = none` renders as JSON null) or absent when `sd = none`.
`vext` stands for an opaque result object produced by an external adapter. -/
inductive WorkVal where
  | vstr (s : String)
  | vpd (horizon_days : Int) (start_date : Option (Option String))
  | vext (tag : String)
deriving DecidableEq, Repr

abbrev Work := List (String × WorkVal)

/-- Modelled from the spec (section 3) and from field accesses in
orchestrator.py: the forecasting payload schema of the missing schemas.py
(`horizon_days` required, `start_date` optional). -/
structure ForecastPayload where
  horizon_days : Int
  start_date : Option String
deriving DecidableEq, Repr

/-- Pydantic `model_dump()`: a dict with both keys present
(start_date rendered as null when absent). -/
def ForecastPayload.model_dump (p : ForecastPayload) : WorkVal :=
  .vpd p.horizon_days (some p.start_date)

/-- Modelled from the spec (section 3) and from field accesses in
orchestrator.py: the decision schema of the missing schemas.py. The action
is kept as a raw string, exactly as orchestrator.py compares it. -/
structure OrchestratorDecision where
  action : String
  reasoning : Option String
  final_answer : Option String
  forecasting_payload : Option ForecastPayload
  rag_query : Option String
  db_query : Option String
deriving DecidableEq, Repr

/-- Python `x or d` on an optional string: both `None` and `""` are falsy. -/
def pyOrStr (x : Option String) (d : String) : String :=
  match x with
  | none => d
  | some s => if s = "" then d else s

/-! ### Session state (spec section 3; `state.py` is not under src/) -/

inductive Msg where
  | human (content : String)
  | system (content : String)
  | ai (content : String)
deriving DecidableEq, Repr

def Msg.content : Msg → String
  | .human c => c
  | .system c => c
  | .ai c => c

/-- Modelled from the spec (section 3): the session state threaded through
the loop — message log, work map, step counter (state.py is not under
src/). -/
structure State where
  messages : List Msg
  work : Work
  steps : Int
deriving DecidableEq, Repr

/-- The dict a langgraph node returns: messages to append, plus the new
work map and step counter. -/
structure NodeRet where
  messages : List Msg
  work : Work
  steps : Int
deriving DecidableEq, Repr

/-- Modelled from the spec (sections 2 and 3): how the driver folds a node
return into the session — messages are an ordered append-only sequence,
work and steps are replaced (graph.py / state.py are not under src/). -/
def State.merge (s : State) (r : NodeRet) : State :=
  { messages := s.messages ++ r.messages, work := r.work, steps := r.steps }

/-! ### Orchestrator node (src/agents/orchestrator.py) -/

/-- The fixed capability-description preamble (ORCH_SYSTEM, orchestrator.py
lines 38-64). -/
def ORCH_SYSTEM : Msg :=
  .system "\nYou are an orchestrator agent that plans step-by-step to answer user queries.\n\nYou have access to THREE specialized agents:\n\n1. **Forecasting Agent** (CALL_FORECASTING):\n   - Use for future predictions and forecasts\n   - Example: \"Forecast ticket counts for the next 3 days\"\n   - Example: \"Predict tickets from 2026-02-15 for 5 days\"\n   - Requires: forecasting_payload with:\n     - horizon_days (required): number of days to forecast\n     - start_date (optional): start date in YYYY-MM-DD format. Defaults to today if not specified.\n\n2. **RAG Agent** (CALL_RAG):\n   - Use for knowledge questions, definitions, explanations\n   - Example: \"What does NET_500 mean?\", \"How do I reset a password?\"\n   - Requires: rag_query as a string\n\n3. **DB Agent** (CALL_DB):\n   - Use for historical data, statistics, ticket counts from database\n   - Example: \"Get ticket count from today till 2 days\", \"How many tickets last week?\"\n   - Requires: db_query as a string\n\nUse state.work to see what you already collected from previous agent calls.\nStop when you have enough information and return FINISH with final_answer.\nMax 5 steps to prevent infinite loops.\n"

def dumpOptStr : Option String → String
  | none => "null"
  | some s => "\"" ++ s ++ "\""

/-- JSON rendering of a work value (json.dumps with default=str); layout is
compact rather than indented — the string only feeds the external reasoning
engine and log messages, so the indentation is immaterial. -/
def WorkVal.dump : WorkVal → String
  | .vstr s => "\"" ++ s ++ "\""
  | .vpd h sd =>
      "\x7b\"horizon_days\": " ++ toString h ++
        (match sd with
         | none => ""
         | some v => ", \"start_date\": " ++ dumpOptStr v) ++ "\x7d"
  | .vext t => t

/-- json.dumps(work, indent=2, default=str), rendered compactly (see
WorkVal.dump). -/
def work_json (w : Work) : String :=
  "\x7b" ++ String.intercalate ", "
    (w.map (fun p => "\"" ++ p.1 ++ "\": " ++ p.2.dump)) ++ "\x7d"

/-- The input assembled for the reasoning engine (orchestrator.py lines
90-94): preamble + full message history + work snapshot. -/
def messages_to_planner (s : State) : List Msg :=
  [ORCH_SYSTEM] ++ s.messages ++
    [.system ("Current state.work JSON:\n" ++ work_json s.work)]

/-- The debug message formatted from a decision (orchestrator.py lines
112-119). -/
def debugMsg (decision : OrchestratorDecision) : String :=
  "DEBUG Orchestrator Decision:\n" ++
  "action=" ++ decision.action ++ "\n" ++
  "reasoning=" ++ pyOrStr decision.reasoning "N/A" ++ "\n" ++
  "forecasting_payload=" ++
    (match decision.forecasting_payload with
     | some p => p.model_dump.dump
     | none => "None") ++ "\n" ++
  "rag_query=" ++ (match decision.rag_query with
     | some s => s
     | none => "None") ++ "\n" ++
  "db_query=" ++ (match decision.db_query with
     | some s => s
     | none => "None") ++ "\n"

/-- The standard stop notice (orchestrator.py line 82). -/
def stopNotice : String := "Stopped after 5 steps to avoid looping."

/-- Orchestrator.py lines 108-152: the part of orchestrator_node after the
step-bound guard, applied to the decision obtained from the reasoning
engine. -/
def orchestrator_decide (work : Work) (steps : Int)
    (decision : OrchestratorDecision) : NodeRet :=
  let debug_msg := debugMsg decision
  if decision.action = "FINISH" then
    { messages := [.ai debug_msg, .ai (pyOrStr decision.final_answer "Finished.")],
      work := work, steps := steps + 1 }
  else
    let new_work := work
    let new_work :=
      if decision.action = "CALL_FORECASTING" then
        alistSet new_work "next_forecasting_payload"
          (match decision.forecasting_payload with
           | some p => p.model_dump
           | none => .vpd 2 none)
      else new_work
    let new_work :=
      if decision.action = "CALL_RAG" then
        alistSet new_work "next_rag_query"
          (.vstr (pyOrStr decision.rag_query "What information do you need?"))
      else new_work
    let new_work :=
      if decision.action = "CALL_DB" then
        alistSet new_work "next_db_query"
          (.vstr (pyOrStr decision.db_query "Get ticket count from today till 2 days"))
      else new_work
    { messages := [.ai debug_msg], work := new_work, steps := steps + 1 }

/-- orchestrator_node (orchestrator.py lines 71-152). The reasoning engine
(llm.with_structured_output(...).invoke) is an external blocking call,
modelled as the function `decide` from the assembled planner input to a
decision; the source invokes it only after the step-bound guard. -/
def orchestrator_node (decide : List Msg → OrchestratorDecision) (s : State) :
    NodeRet :=
  let work := s.work
  let steps := s.steps
  if steps ≥ 5 then
    { messages := [.ai stopNotice], work := work, steps := steps }
  else
    let decision := decide (messages_to_planner s)
    orchestrator_decide work steps decision

/-! ### Capability call nodes (orchestrator.py lines 158-227) -/

/-- Pydantic `ForecastPayload(**d)` on a work value: succeeds on a
payload-shaped dict, raises (here: `none`) on any other value. -/
def toForecastPayload : WorkVal → Option ForecastPayload
  | .vpd h sd => some { horizon_days := h, start_date := sd.getD none }
  | _ => none

/-- call_forecasting_node (orchestrator.py lines 158-179). The external
forecasting_agent is a parameter; `none` models the pydantic validation
error escaping the node when the stored marker is not payload-shaped. -/
def call_forecasting_node (forecasting_agent : ForecastPayload → WorkVal)
    (s : State) : Option NodeRet :=
  let work := s.work
  match toForecastPayload
      ((alistGet work "next_forecasting_payload").getD (.vpd 2 none)) with
  | none => none
  | some payload =>
    let result := forecasting_agent payload
    let work := alistSet work "forecast_result" result
    let work := alistPop work "next_forecasting_payload"
    some { messages := [.ai ("DEBUG Forecasting Agent returned:\n" ++ result.dump)],
           work := work, steps := s.steps }

/-- call_rag_node (orchestrator.py lines 182-203); rag_agent is external. -/
def call_rag_node (rag_agent : WorkVal → WorkVal) (s : State) : NodeRet :=
  let work := s.work
  let query := (alistGet work "next_rag_query").getD
    (.vstr "What information do you need?")
  let result := rag_agent query
  let work := alistSet work "rag_result" result
  let work := alistPop work "next_rag_query"
  { messages := [.ai ("DEBUG RAG Agent returned:\n" ++ result.dump)],
    work := work, steps := s.steps }

/-- call_db_node (orchestrator.py lines 206-227); db_agent is external
(db.py is not under src/). -/
def call_db_node (db_agent : WorkVal → WorkVal) (s : State) : NodeRet :=
  let work := s.work
  let query := (alistGet work "next_db_query").getD
    (.vstr "Get ticket count from today till 2 days")
  let result := db_agent query
  let work := alistSet work "db_result" result
  let work := alistPop work "next_db_query"
  { messages := [.ai ("DEBUG DB Agent returned:\n" ++ result.dump)],
    work := work, steps := s.steps }

/-! ### Driver / graph wiring -/

inductive Cap where
  | forecast
  | rag
  | db
deriving DecidableEq, Repr

/-- Modelled from the spec (sections 2 and 4.1 step 6; graph.py is not under
src/): after the orchestrator yields, the driver dispatches on the
pending-delegation marker present in the work map, or terminates when none
is present (FINISH or step bound). -/
def route (w : Work) : Option Cap :=
  if (alistGet w "next_forecasting_payload").isSome then some .forecast
  else if (alistGet w "next_rag_query").isSome then some .rag
  else if (alistGet w "next_db_query").isSome then some .db
  else none

/-- Number of pending-delegation markers present in a work map (spec
section 3: next_forecasting_payload, next_rag_query, next_db_query). -/
def pendingCount (w : Work) : Nat :=
  (if (alistGet w "next_forecasting_payload").isSome then 1 else 0) +
  (if (alistGet w "next_rag_query").isSome then 1 else 0) +
  (if (alistGet w "next_db_query").isSome then 1 else 0)

/-- No pending-delegation marker is present. -/
def noPending (w : Work) : Prop :=
  alistGet w "next_forecasting_payload" = none ∧
  alistGet w "next_rag_query" = none ∧
  alistGet w "next_db_query" = none

instance (w : Work) : Decidable (noPending w) := by
  unfold noPending; infer_instance

/-- The external collaborators of one run: the reasoning engine and the
three capability adapters. -/
structure Agents where
  decide : List Msg → OrchestratorDecision
  forecasting_agent : ForecastPayload → WorkVal
  rag_agent : WorkVal → WorkVal
  db_agent : WorkVal → WorkVal

/-- Position in the loop: about to run the orchestrator, or just after it
(before the driver dispatches). -/
inductive Phase where
  | atOrch
  | afterOrch
deriving DecidableEq, Repr

/-- Modelled from the spec (sections 2 and 4.1; graph.py is not under
src/): the reachable session states of one driver run. A run starts at the
initial state built by main.py (empty work, steps = 0); the orchestrator
node fires from `atOrch`; from `afterOrch` the driver dispatches to the
capability named by the pending marker and folds its result back in. -/
inductive Reach (A : Agents) : Phase → State → Prop where
  | init (messages : List Msg) :
      Reach A .atOrch { messages := messages, work := [], steps := 0 }
  | orch {s : State} : Reach A .atOrch s →
      Reach A .afterOrch (s.merge (orchestrator_node A.decide s))
  | dispatchForecast {s : State} {r : NodeRet} : Reach A .afterOrch s →
      route s.work = some .forecast →
      call_forecasting_node A.forecasting_agent s = some r →
      Reach A .atOrch (s.merge r)
  | dispatchRag {s : State} : Reach A .afterOrch s →
      route s.work = some .rag →
      Reach A .atOrch (s.merge (call_rag_node A.rag_agent s))
  | dispatchDb {s : State} : Reach A .afterOrch s →
      route s.work = some .db →
      Reach A .atOrch (s.merge (call_db_node A.db_agent s))

/-- Modelled from the spec (section 2; graph.py is not under src/): run the
loop for at most `n` orchestrator activations, counting reasoning-engine
invocations. The count for one activation is 1 exactly when the step-bound
guard lets the source reach the llm invocation (orchestrator.py line 96),
and 0 when the guard returns early. -/
def runCount (A : Agents) : Nat → State → State × Nat
  | 0, s => (s, 0)
  | n + 1, s =>
    let c : Nat := if s.steps ≥ 5 then 0 else 1
    let s' := s.merge (orchestrator_node A.decide s)
    match route s'.work with
    | some .forecast =>
      match call_forecasting_node A.forecasting_agent s' with
      | none => (s', c)
      | some r =>
        let p := runCount A n (s'.merge r)
        (p.1, c + p.2)
    | some .rag =>
      let p := runCount A n (s'.merge (call_rag_node A.rag_agent s'))
      (p.1, c + p.2)
    | some .db =>
      let p := runCount A n (s'.merge (call_db_node A.db_agent s'))
      (p.1, c + p.2)
    | none => (s', c)

/-! ### Semantic cache (src/agents/semantic_cache.py) -/

def SIMILARITY_THRESHOLD : ℚ := 92 / 100

def CACHE_TTL_HOURS : Int := 24

structure CacheSource where
  source : String
  page : String
deriving DecidableEq, Repr

/-- A DynamoDB record of the value store (the Item written by
save_to_cache, semantic_cache.py lines 116-124). -/
structure Item where
  cache_key : String
  query : String
  answer : String
  contexts : List String
  sources : List CacheSource
  created_at : Int
  ttl : Int
deriving DecidableEq, Repr

/-- A document of the FAISS similarity index: the query text plus the
metadata value under "cache_key" (absent modelled as none). -/
structure Doc where
  page_content : String
  cache_key : Option String
deriving DecidableEq, Repr

/-- The dict returned by check_cache on a hit (semantic_cache.py lines
93-99). -/
structure CacheHit where
  answer : String
  sources : List CacheSource
  cached : Bool
  similar_query : String
  similarity : ℚ
deriving DecidableEq, Repr

/-- get_cache_key (semantic_cache.py lines 57-59): MD5 hex digest of the
case-folded, trimmed query. MD5 is an external primitive, modelled as the
abstract function md5hex. -/
def get_cache_key (md5hex : String → String) (query : String) : String :=
  md5hex query.toLower.trim

/-- Python round(x, 3). Python rounds ties to even; this model rounds ties
up — the two differ only at exact multiples of 1/2000, which no property
here touches. -/
def pyRound3 (x : ℚ) : ℚ := (round (x * 1000) : Int) / 1000

/-- The external operations check_cache performs, each of which is a remote
or process-global access that may raise (Except.error). ι is the type of
the index handle returned by _get_cache_index. -/
structure CacheOps (ι : Type) where
  get_cache_index : Except Unit (Option ι)
  similarity_search_with_score : ι → String → Except Unit (List (Doc × ℚ))
  get_item : String → Except Unit (Option Item)

/-- The body of check_cache inside its try block (semantic_cache.py lines
67-99). An Except.error is an exception travelling toward the handler. -/
def check_cacheE {ι : Type} (ops : CacheOps ι) (query : String) :
    Except Unit (Option CacheHit) := do
  let some cache_index ← ops.get_cache_index | return none
  let results ← ops.similarity_search_with_score cache_index query
  match results with
  | [] => return none
  | (doc, score) :: _ =>
    let similarity := 1 - score
    if similarity < SIMILARITY_THRESHOLD then
      return none
    else
      match doc.cache_key with
      | none => throw ()
      | some cache_key =>
        let response ← ops.get_item cache_key
        match response with
        | none => return none
        | some item =>
          return some { answer := item.answer, sources := item.sources,
                        cached := true, similar_query := doc.page_content,
                        similarity := pyRound3 similarity }

/-- check_cache (semantic_cache.py lines 62-102): the body wrapped in
"except Exception: return None" — any raise is a miss. -/
def check_cache {ι : Type} (ops : CacheOps ι) (query : String) :
    Option CacheHit :=
  match check_cacheE ops query with
  | .error _ => none
  | .ok r => r

/-! #### Pure instantiation: the FAISS index as a document list and DynamoDB
as a key-value association list. -/

/-- The combined state of the two cache stores: the FAISS index
(none = uninitialized, i.e. no index file exists and nothing was inserted
yet) and the DynamoDB table. -/
structure CacheState where
  faiss : Option (List Doc)
  dynamo : List (String × Item)
deriving DecidableEq, Repr

/-- FAISS similarity_search_with_score with k = 1 over a list of documents:
the single nearest document by embedding distance, first-in-index winning
ties. `dist q t` is the distance between the embeddings of texts q and t;
the embedding model is external, so dist is a parameter. -/
def faissSearch (dist : String → String → ℚ) (docs : List Doc)
    (query : String) : List (Doc × ℚ) :=
  match docs with
  | [] => []
  | d :: ds =>
    [ds.foldl
      (fun best d' =>
        let dd := dist query d'.page_content
        if dd < best.2 then (d', dd) else best)
      (d, dist query d.page_content)]

/-- The cache operations when every remote call succeeds, reading the given
cache state. -/
def pureOps (dist : String → String → ℚ) (st : CacheState) :
    CacheOps (List Doc) :=
  { get_cache_index := .ok st.faiss
  , similarity_search_with_score := fun idx q => .ok (faissSearch dist idx q)
  , get_item := fun k => .ok (alistGet st.dynamo k) }

/-- check_cache run against a concrete cache state with no remote
failures. -/
def check_cache_model (dist : String → String → ℚ) (st : CacheState)
    (query : String) : Option CacheHit :=
  check_cache (pureOps dist st) query

/-- Which of the external calls inside save_to_cache raise, in source
order: the DynamoDB put_item, the index load, the embedding computation
(inside FAISS.from_documents / add_documents), and the index save to
disk. -/
structure SaveFails where
  put_item : Bool
  load_index : Bool
  embed_step : Bool
  save_index : Bool
deriving DecidableEq, Repr

def noFails : SaveFails := ⟨false, false, false, false⟩

/-- The body of save_to_cache inside its try block (semantic_cache.py
lines 113-136). Sum.inl st means an exception was raised with the stores
mutated up to that point being st; Sum.inr st is normal completion.
add_documents mutates the in-memory index object held in the process-global
slot even when the subsequent disk write fails, while a fresh index built
by FAISS.from_documents reaches the global slot only through
_save_cache_index. -/
def save_to_cacheBody (f : SaveFails) (md5hex : String → String) (now : Int)
    (st : CacheState) (query answer : String)
    (contexts : Option (List String)) (sources : Option (List CacheSource)) :
    CacheState ⊕ CacheState :=
  let cache_key := get_cache_key md5hex query
  if f.put_item then .inl st else
  let item : Item :=
    { cache_key := cache_key, query := query, answer := answer,
      contexts := contexts.getD [], sources := sources.getD [],
      created_at := now, ttl := now + CACHE_TTL_HOURS * 3600 }
  let st1 : CacheState := { st with dynamo := alistSet st.dynamo cache_key item }
  if f.load_index then .inl st1 else
  let cache_index := st1.faiss
  let doc : Doc := { page_content := query, cache_key := some cache_key }
  if f.embed_step then .inl st1 else
  match cache_index with
  | none =>
    if f.save_index then .inl st1
    else .inr { st1 with faiss := some [doc] }
  | some idx =>
    let st2 : CacheState := { st1 with faiss := some (idx ++ [doc]) }
    if f.save_index then .inl st2 else .inr st2

/-- save_to_cache (semantic_cache.py lines 105-139): the body wrapped in
"except Exception: pass" — a raise anywhere leaves the stores as mutated so
far and returns normally. -/
def save_to_cache (f : SaveFails) (md5hex : String → String) (now : Int)
    (st : CacheState) (query answer : String)
    (contexts : Option (List String)) (sources : Option (List CacheSource)) :
    CacheState :=
  match save_to_cacheBody f md5hex now st query answer contexts sources with
  | .inl st' => st'
  | .inr st' => st'

/-! ### API entry point (src/main.py) -/

structure QueryRequest where
  query : String
  session_id : String
deriving DecidableEq, Repr

structure QueryResponse where
  query : String
  answer : String
  work : Work
  steps : Int
deriving DecidableEq, Repr

/-- An HTTPException: status code and detail. -/
abbrev HErr := Nat × String

/-- The per-session fixed-window rate-limiter table _requests:
session id to (window start, request count). -/
abbrev RateTable := List (String × Int × Nat)

/-- rate_limit (main.py lines 32-39), limit 10 per 60 seconds:
returns the updated table, or raises 429. -/
def rate_limit (req : RateTable) (user_id : String) (now : Int) :
    Except HErr RateTable :=
  match alistGet req user_id with
  | none => .ok (alistSet req user_id (now, 1))
  | some (t0, c) =>
    if now - t0 > 60 then .ok (alistSet req user_id (now, 1))
    else if c ≥ 10 then .error (429, "Too many requests. Try again later.")
    else .ok (alistSet req user_id (t0, c + 1))

/-- process_query (main.py lines 88-150). The langgraph invocation
run_multi_agent is the external world transition `run` over an abstract
world Ω holding all session and cache state; the function returns the new
world, the new rate table, and either the HTTP error raised or the
response. Logging and metrics emission have no effect on any returned
value and are omitted. -/
def process_query {Ω : Type} (run : String → String → Ω → Ω × State) (ω : Ω)
    (req : RateTable) (now : Int) (request : QueryRequest) :
    (Ω × RateTable) × Except HErr QueryResponse :=
  if request.query.toList.all Char.isWhitespace then
    ((ω, req), .error (400, "Query cannot be empty"))
  else
    match rate_limit req request.session_id now with
    | .error e => ((ω, req), .error e)
    | .ok req' =>
      let p := run request.query request.session_id ω
      let result := p.2
      let answer :=
        match result.messages.getLast? with
        | some m => m.content
        | none => "No response generated"
      ((p.1, req'),
       .ok { query := request.query, answer := answer,
             work := result.work, steps := result.steps })

/-! ### Concrete fixtures used to instantiate theorems with hypotheses -/

/-- A concrete embedding-distance model: identical texts at distance 0,
all others at distance 1. -/
def dist0 : String → String → ℚ := fun a b => if a = b then 0 else 1

/-- A concrete stand-in for the abstract MD5 hex function: a constant
digest, adequate because the single stored key only ever meets itself. -/
def constHex : String → String := fun _ => "cache-key-1"

def exSt0 : CacheState := { faiss := none, dynamo := [] }

/-- The cache state after inserting query "q" with answer "a" at time 0:
the stored record expires (ttl) at 86400 = 0 + 24h. -/
def exSt1 : CacheState := save_to_cache noFails constHex 0 exSt0 "q" "a" none none

/-- Cache operations in which every external call raises. -/
def failOps : CacheOps Unit :=
  { get_cache_index := .error ()
  , similarity_search_with_score := fun _ _ => .error ()
  , get_item := fun _ => .error () }

def decFc : OrchestratorDecision :=
  { action := "CALL_FORECASTING", reasoning := some "need a forecast",
    final_answer := none, forecasting_payload := none,
    rag_query := none, db_query := none }

def decFin : OrchestratorDecision :=
  { action := "FINISH", reasoning := some "done", final_answer := some "the answer",
    forecasting_payload := none, rag_query := none, db_query := none }

def decRag : OrchestratorDecision :=
  { action := "CALL_RAG", reasoning := some "look it up", final_answer := none,
    forecasting_payload := none, rag_query := none, db_query := none }

def decDb : OrchestratorDecision :=
  { action := "CALL_DB", reasoning := some "count rows", final_answer := none,
    forecasting_payload := none, rag_query := none, db_query := none }

/-- A run whose reasoning engine always delegates to forecasting (never
FINISH), with fixed adapter results. -/
def exAgents : Agents :=
  { decide := fun _ => decFc
  , forecasting_agent := fun _ => .vext "forecast-result-object"
  , rag_agent := fun _ => .vext "rag-result-object"
  , db_agent := fun _ => .vext "db-result-object" }

def exInit : State := { messages := [.human "hi"], work := [], steps := 0 }

def exS5 : State := { messages := [.human "hi"], work := [], steps := 5 }

def run0 : String → String → Unit → Unit × State := fun _ _ w => (w, exInit)

/-- A cache state whose index exists but holds no documents. -/
def exStEmptyIdx : CacheState := { faiss := some [], dynamo := [] }

/-- A cache state whose single index entry points at a key absent from the
value store (a dangling IndexEntry). -/
def exStDangling : CacheState :=
  { faiss := some [{ page_content := "q", cache_key := some "missing" }],
    dynamo := [] }

/-- A session state holding a pending forecasting delegation. -/
def exSF : State :=
  { messages := [], work := [("next_forecasting_payload", .vpd 2 none)],
    steps := 1 }

def exFAgent : ForecastPayload → WorkVal := fun _ => .vext "forecast-result-object"

def exRAgent : WorkVal → WorkVal := fun _ => .vext "rag-result-object"

/-! ### Library lemmas about the dict model -/

theorem alistGet_set_self {α : Type} (m : List (String × α)) (k : String) (v : α) :
    alistGet (alistSet m k v) k = some v := by
  induction m with
  | nil => simp [alistGet, alistSet]
  | cons hd t ih =>
    obtain ⟨k'', v''⟩ := hd
    by_cases hk : k'' = k
    · simp [alistGet, alistSet, hk]
    · simp [alistGet, alistSet, hk, ih]

theorem alistGet_set_ne {α : Type} (m : List (String × α)) (k k' : String) (v : α)
    (h : k' ≠ k) : alistGet (alistSet m k v) k' = alistGet m k' := by
  have h' : k ≠ k' := Ne.symm h
  induction m with
  | nil => simp [alistGet, alistSet, h']
  | cons hd t ih =>
    obtain ⟨k'', v''⟩ := hd
    by_cases hk : k'' = k
    · subst hk
      simp [alistGet, alistSet, h']
    · by_cases hk' : k'' = k'
      · simp [alistGet, alistSet, hk, hk', h]
      · simp [alistGet, alistSet, hk, hk', ih]

theorem alistGet_pop_self {α : Type} (m : List (String × α)) (k : String) :
    alistGet (alistPop m k) k = none := by
  induction m with
  | nil => simp [alistGet, alistPop]
  | cons hd t ih =>
    obtain ⟨k'', v''⟩ := hd
    by_cases hk : k'' = k
    · simpa [alistPop, List.filter_cons, hk] using ih
    · simpa [alistPop, List.filter_cons, alistGet, hk] using ih

theorem alistGet_pop_ne {α : Type} (m : List (String × α)) (k k' : String)
    (h : k' ≠ k) : alistGet (alistPop m k) k' = alistGet m k' := by
  have h' : k ≠ k' := Ne.symm h
  induction m with
  | nil => simp [alistGet, alistPop]
  | cons hd t ih =>
    obtain ⟨k'', v''⟩ := hd
    by_cases hk : k'' = k
    · simpa [alistPop, List.filter_cons, alistGet, hk, h'] using ih
    · by_cases hk' : k'' = k'
      · simp [alistPop, List.filter_cons, alistGet, hk, hk', h]
      · simpa [alistPop, List.filter_cons, alistGet, hk, hk'] using ih

/-! ### Structural lemmas about the orchestrator -/

theorem orchestrator_decide_steps (w : Work) (steps : Int)
    (dec : OrchestratorDecision) :
    (orchestrator_decide w steps dec).steps = steps + 1 := by
  unfold orchestrator_decide
  split <;> rfl

theorem orchestrator_node_stop (d : List Msg → OrchestratorDecision) (s : State)
    (h : 5 ≤ s.steps) :
    orchestrator_node d s =
      { messages := [.ai stopNotice], work := s.work, steps := s.steps } := by
  unfold orchestrator_node
  simp [h]

theorem orchestrator_node_steps (d : List Msg → OrchestratorDecision) (s : State) :
    (orchestrator_node d s).steps =
      if 5 ≤ s.steps then s.steps else s.steps + 1 := by
  unfold orchestrator_node
  by_cases h : 5 ≤ s.steps
  · simp [h]
  · simp [h, orchestrator_decide_steps]

theorem noPending_count (w : Work) (h : noPending w) : pendingCount w = 0 := by
  obtain ⟨h1, h2, h3⟩ := h
  simp [pendingCount, h1, h2, h3]

theorem route_none_of_noPending (w : Work) (h : noPending w) : route w = none := by
  obtain ⟨h1, h2, h3⟩ := h
  simp [route, h1, h2, h3]

theorem orchestrator_decide_work_finish (w : Work) (steps : Int)
    (dec : OrchestratorDecision) (h : dec.action = "FINISH") :
    (orchestrator_decide w steps dec).work = w := by
  unfold orchestrator_decide
  rw [if_pos h]

theorem orchestrator_decide_work_forecast (w : Work) (steps : Int)
    (dec : OrchestratorDecision) (h : dec.action = "CALL_FORECASTING") :
    (orchestrator_decide w steps dec).work =
      alistSet w "next_forecasting_payload"
        (match dec.forecasting_payload with
         | some p => p.model_dump
         | none => .vpd 2 none) := by
  unfold orchestrator_decide
  rw [h]
  simp

theorem orchestrator_decide_work_rag (w : Work) (steps : Int)
    (dec : OrchestratorDecision) (h : dec.action = "CALL_RAG") :
    (orchestrator_decide w steps dec).work =
      alistSet w "next_rag_query"
        (.vstr (pyOrStr dec.rag_query "What information do you need?")) := by
  unfold orchestrator_decide
  rw [h]
  simp

theorem orchestrator_decide_work_db (w : Work) (steps : Int)
    (dec : OrchestratorDecision) (h : dec.action = "CALL_DB") :
    (orchestrator_decide w steps dec).work =
      alistSet w "next_db_query"
        (.vstr (pyOrStr dec.db_query "Get ticket count from today till 2 days")) := by
  unfold orchestrator_decide
  rw [h]
  simp

theorem orchestrator_decide_work_other (w : Work) (steps : Int)
    (dec : OrchestratorDecision) (hFin : ¬ dec.action = "FINISH")
    (hF : ¬ dec.action = "CALL_FORECASTING") (hR : ¬ dec.action = "CALL_RAG")
    (hD : ¬ dec.action = "CALL_DB") :
    (orchestrator_decide w steps dec).work = w := by
  unfold orchestrator_decide
  simp [hFin, hF, hR, hD]

theorem orchestrator_decide_pending (w : Work) (steps : Int)
    (dec : OrchestratorDecision) (hw : noPending w) :
    pendingCount (orchestrator_decide w steps dec).work ≤ 1 := by
  obtain ⟨h1, h2, h3⟩ := hw
  by_cases hFin : dec.action = "FINISH"
  · rw [orchestrator_decide_work_finish _ _ _ hFin]
    simp [pendingCount, h1, h2, h3]
  · by_cases hF : dec.action = "CALL_FORECASTING"
    · rw [orchestrator_decide_work_forecast _ _ _ hF]
      unfold pendingCount
      rw [alistGet_set_self,
          alistGet_set_ne _ _ _ _ (by decide),
          alistGet_set_ne _ _ _ _ (by decide), h2, h3]
      simp
    · by_cases hR : dec.action = "CALL_RAG"
      · rw [orchestrator_decide_work_rag _ _ _ hR]
        unfold pendingCount
        rw [alistGet_set_self,
            alistGet_set_ne _ _ _ _ (by decide),
            alistGet_set_ne _ _ _ _ (by decide), h1, h3]
        simp
      · by_cases hD : dec.action = "CALL_DB"
        · rw [orchestrator_decide_work_db _ _ _ hD]
          unfold pendingCount
          rw [alistGet_set_self,
              alistGet_set_ne _ _ _ _ (by decide),
              alistGet_set_ne _ _ _ _ (by decide), h1, h2]
          simp
        · rw [orchestrator_decide_work_other _ _ _ hFin hF hR hD]
          simp [pendingCount, h1, h2, h3]

/-! ### Structural lemmas about the call nodes and routing -/

theorem call_forecasting_node_spec (f : ForecastPayload → WorkVal) (s : State)
    (r : NodeRet) (h : call_forecasting_node f s = some r) :
    r.steps = s.steps ∧
    alistGet r.work "next_forecasting_payload" = none ∧
    (∀ k, k ≠ "next_forecasting_payload" → k ≠ "forecast_result" →
        alistGet r.work k = alistGet s.work k) := by
  unfold call_forecasting_node at h
  rcases htp : toForecastPayload
      ((alistGet s.work "next_forecasting_payload").getD (.vpd 2 none)) with _ | p
  · simp [htp] at h
  · simp [htp] at h
    subst h
    refine ⟨rfl, alistGet_pop_self _ _, ?_⟩
    intro k hk1 hk2
    rw [alistGet_pop_ne _ _ _ hk1, alistGet_set_ne _ _ _ _ hk2]

theorem call_rag_node_spec (a : WorkVal → WorkVal) (s : State) :
    (call_rag_node a s).steps = s.steps ∧
    alistGet (call_rag_node a s).work "next_rag_query" = none ∧
    (∀ k, k ≠ "next_rag_query" → k ≠ "rag_result" →
        alistGet (call_rag_node a s).work k = alistGet s.work k) := by
  refine ⟨rfl, alistGet_pop_self _ _, ?_⟩
  intro k hk1 hk2
  show alistGet (alistPop (alistSet s.work "rag_result" _) "next_rag_query") k = _
  rw [alistGet_pop_ne _ _ _ hk1, alistGet_set_ne _ _ _ _ hk2]

theorem call_db_node_spec (a : WorkVal → WorkVal) (s : State) :
    (call_db_node a s).steps = s.steps ∧
    alistGet (call_db_node a s).work "next_db_query" = none ∧
    (∀ k, k ≠ "next_db_query" → k ≠ "db_result" →
        alistGet (call_db_node a s).work k = alistGet s.work k) := by
  refine ⟨rfl, alistGet_pop_self _ _, ?_⟩
  intro k hk1 hk2
  show alistGet (alistPop (alistSet s.work "db_result" _) "next_db_query") k = _
  rw [alistGet_pop_ne _ _ _ hk1, alistGet_set_ne _ _ _ _ hk2]

theorem route_forecast_mark (w : Work) (h : route w = some .forecast) :
    (alistGet w "next_forecasting_payload").isSome := by
  unfold route at h
  split_ifs at h with h1 h2 h3
  · exact h1
  · simp at h
  · simp at h

theorem route_rag_mark (w : Work) (h : route w = some .rag) :
    alistGet w "next_forecasting_payload" = none ∧
    (alistGet w "next_rag_query").isSome := by
  unfold route at h
  split_ifs at h with h1 h2 h3
  · simp at h
  · exact ⟨Option.not_isSome_iff_eq_none.mp h1, h2⟩
  · simp at h

theorem route_db_mark (w : Work) (h : route w = some .db) :
    alistGet w "next_forecasting_payload" = none ∧
    alistGet w "next_rag_query" = none ∧
    (alistGet w "next_db_query").isSome := by
  unfold route at h
  split_ifs at h with h1 h2 h3
  · simp at h
  · simp at h
  · exact ⟨Option.not_isSome_iff_eq_none.mp h1,
      Option.not_isSome_iff_eq_none.mp h2, h3⟩

theorem pending_le_one_forecast (w : Work) (hc : pendingCount w ≤ 1)
    (hm : (alistGet w "next_forecasting_payload").isSome) :
    alistGet w "next_rag_query" = none ∧ alistGet w "next_db_query" = none := by
  unfold pendingCount at hc
  rw [if_pos hm] at hc
  constructor
  · by_cases h : (alistGet w "next_rag_query").isSome
    · rw [if_pos h] at hc; omega
    · exact Option.not_isSome_iff_eq_none.mp h
  · by_cases h : (alistGet w "next_db_query").isSome
    · rw [if_pos h] at hc; omega
    · exact Option.not_isSome_iff_eq_none.mp h

theorem pending_le_one_rag (w : Work) (hc : pendingCount w ≤ 1)
    (hm : (alistGet w "next_rag_query").isSome) :
    alistGet w "next_db_query" = none := by
  unfold pendingCount at hc
  rw [if_pos hm] at hc
  by_cases h : (alistGet w "next_db_query").isSome
  · rw [if_pos h] at hc; omega
  · exact Option.not_isSome_iff_eq_none.mp h

/-! ### The reachable-state invariant of the driver loop -/

theorem reach_inv (A : Agents) (ph : Phase) (s : State) (h : Reach A ph s) :
    (0 ≤ s.steps ∧ s.steps ≤ 5) ∧
    (ph = .atOrch → noPending s.work) ∧
    (ph = .afterOrch → pendingCount s.work ≤ 1) := by
  induction h with
  | init messages =>
    refine ⟨⟨le_refl 0, by norm_num⟩, ?_, ?_⟩ <;>
      simp [noPending, pendingCount, alistGet]
  | orch hr ih =>
    rename_i s
    obtain ⟨⟨hs0, hs5⟩, hat, _⟩ := ih
    have hnp : noPending s.work := hat rfl
    refine ⟨?_, by simp, ?_⟩
    · show 0 ≤ (orchestrator_node A.decide s).steps ∧
          (orchestrator_node A.decide s).steps ≤ 5
      rw [orchestrator_node_steps]
      by_cases h5 : 5 ≤ s.steps
      · simp [h5]; omega
      · simp [h5]; omega
    · intro _
      show pendingCount (orchestrator_node A.decide s).work ≤ 1
      by_cases h5 : 5 ≤ s.steps
      · rw [orchestrator_node_stop _ _ h5]
        show pendingCount s.work ≤ 1
        rw [noPending_count _ hnp]
        exact Nat.zero_le 1
      · unfold orchestrator_node
        simp only [ge_iff_le, h5, if_false]
        exact orchestrator_decide_pending _ _ _ hnp
  | dispatchForecast hr hroute hcall ih =>
    rename_i s r
    obtain ⟨⟨hs0, hs5⟩, _, haft⟩ := ih
    obtain ⟨hsteps, hown, hframe⟩ := call_forecasting_node_spec _ _ _ hcall
    have hmark := route_forecast_mark _ hroute
    obtain ⟨hrq, hdq⟩ := pending_le_one_forecast _ (haft rfl) hmark
    refine ⟨by rw [State.merge, hsteps]; exact ⟨hs0, hs5⟩, ?_, by simp⟩
    intro _
    refine ⟨hown, ?_, ?_⟩
    · show alistGet r.work "next_rag_query" = none
      rw [hframe "next_rag_query" (by decide) (by decide)]
      exact hrq
    · show alistGet r.work "next_db_query" = none
      rw [hframe "next_db_query" (by decide) (by decide)]
      exact hdq
  | dispatchRag hr hroute ih =>
    rename_i s
    obtain ⟨⟨hs0, hs5⟩, _, haft⟩ := ih
    obtain ⟨hsteps, hown, hframe⟩ := call_rag_node_spec A.rag_agent s
    obtain ⟨hfp, hmark⟩ := route_rag_mark _ hroute
    have hdq := pending_le_one_rag _ (haft rfl) hmark
    refine ⟨by rw [State.merge, hsteps]; exact ⟨hs0, hs5⟩, ?_, by simp⟩
    intro _
    refine ⟨?_, hown, ?_⟩
    · show alistGet (call_rag_node A.rag_agent s).work "next_forecasting_payload" = none
      rw [hframe "next_forecasting_payload" (by decide) (by decide)]
      exact hfp
    · show alistGet (call_rag_node A.rag_agent s).work "next_db_query" = none
      rw [hframe "next_db_query" (by decide) (by decide)]
      exact hdq
  | dispatchDb hr hroute ih =>
    rename_i s
    obtain ⟨⟨hs0, hs5⟩, _, haft⟩ := ih
    obtain ⟨hsteps, hown, hframe⟩ := call_db_node_spec A.db_agent s
    obtain ⟨hfp, hrq, hmark⟩ := route_db_mark _ hroute
    refine ⟨by rw [State.merge, hsteps]; exact ⟨hs0, hs5⟩, ?_, by simp⟩
    intro _
    refine ⟨?_, ?_, hown⟩
    · show alistGet (call_db_node A.db_agent s).work "next_forecasting_payload" = none
      rw [hframe "next_forecasting_payload" (by decide) (by decide)]
      exact hfp
    · show alistGet (call_db_node A.db_agent s).work "next_rag_query" = none
      rw [hframe "next_rag_query" (by decide) (by decide)]
      exact hrq

/-! ### Bounding the number of reasoning-engine invocations -/

theorem runCount_le (A : Agents) :
    ∀ (n : Nat) (s : State), (runCount A n s).2 ≤ (5 - s.steps).toNat := by
  intro n
  induction n with
  | zero =>
    intro s
    simp [runCount]
  | succ n ih =>
    intro s
    have hsteps : (s.merge (orchestrator_node A.decide s)).steps =
        if 5 ≤ s.steps then s.steps else s.steps + 1 := by
      show (orchestrator_node A.decide s).steps = _
      exact orchestrator_node_steps A.decide s
    simp only [runCount]
    rcases hroute : route (s.merge (orchestrator_node A.decide s)).work with _ | cap
    · by_cases h5 : 5 ≤ s.steps
      · simp [h5]
      · simp [h5]
        omega
    · rcases cap with _ | _ | _
      · rcases hcall : call_forecasting_node A.forecasting_agent
            (s.merge (orchestrator_node A.decide s)) with _ | r
        · by_cases h5 : 5 ≤ s.steps
          · simp [h5]
          · simp [h5]
            omega
        · have hrs := (call_forecasting_node_spec _ _ _ hcall).1
          have hrec := ih ((s.merge (orchestrator_node A.decide s)).merge r)
          have hms : ((s.merge (orchestrator_node A.decide s)).merge r).steps =
              r.steps := rfl
          rw [hms, hrs, hsteps] at hrec
          by_cases h5 : 5 ≤ s.steps
          · rw [if_pos h5] at hrec
            simp [h5]
            omega
          · rw [if_neg h5] at hrec
            simp [h5]
            omega
      · have hrs := (call_rag_node_spec A.rag_agent
          (s.merge (orchestrator_node A.decide s))).1
        have hrec := ih ((s.merge (orchestrator_node A.decide s)).merge
          (call_rag_node A.rag_agent (s.merge (orchestrator_node A.decide s))))
        have hms : ((s.merge (orchestrator_node A.decide s)).merge
            (call_rag_node A.rag_agent (s.merge (orchestrator_node A.decide s)))).steps =
            (call_rag_node A.rag_agent (s.merge (orchestrator_node A.decide s))).steps := rfl
        rw [hms, hrs, hsteps] at hrec
        by_cases h5 : 5 ≤ s.steps
        · rw [if_pos h5] at hrec
          simp [h5]
          omega
        · rw [if_neg h5] at hrec
          simp [h5]
          omega
      · have hrs := (call_db_node_spec A.db_agent
          (s.merge (orchestrator_node A.decide s))).1
        have hrec := ih ((s.merge (orchestrator_node A.decide s)).merge
          (call_db_node A.db_agent (s.merge (orchestrator_node A.decide s))))
        have hms : ((s.merge (orchestrator_node A.decide s)).merge
            (call_db_node A.db_agent (s.merge (orchestrator_node A.decide s)))).steps =
            (call_db_node A.db_agent (s.merge (orchestrator_node A.decide s))).steps := rfl
        rw [hms, hrs, hsteps] at hrec
        by_cases h5 : 5 ≤ s.steps
        · rw [if_pos h5] at hrec
          simp [h5]
          omega
        · rw [if_neg h5] at hrec
          simp [h5]
          omega

/-! ### Cache lemmas -/

theorem faiss_foldl_pos (dist : String → String → ℚ) (q : String) (l : List Doc)
    (b : Doc × ℚ) (hb : 0 < b.2)
    (hl : ∀ d ∈ l, 0 < dist q d.page_content) :
    0 < (l.foldl (fun best d' =>
      let dd := dist q d'.page_content
      if dd < best.2 then (d', dd) else best) b).2 := by
  induction l generalizing b with
  | nil => simpa using hb
  | cons hd t ih =>
    simp only [List.foldl_cons]
    apply ih
    · dsimp only
      split
      · exact hl hd (List.mem_cons_self hd t)
      · exact hb
    · intro d hd'
      exact hl d (List.mem_cons_of_mem _ hd')

theorem faissSearch_self (dist : String → String → ℚ) (q : String) (dq : Doc)
    (hq : dq.page_content = q) (l : List Doc)
    (hself : dist q q = 0)
    (hpos : ∀ d ∈ l, 0 < dist q d.page_content) :
    faissSearch dist (l ++ [dq]) q = [(dq, 0)] := by
  cases l with
  | nil => simp [faissSearch, hq, hself]
  | cons hd t =>
    have hb : 0 < dist q hd.page_content := hpos hd (by simp)
    have hpos' : ∀ d ∈ t, 0 < dist q d.page_content := fun d hd' =>
      hpos d (by simp [hd'])
    have hmid := faiss_foldl_pos dist q t (hd, dist q hd.page_content) hb hpos'
    simp only [List.cons_append, faissSearch, List.foldl_append, List.foldl_cons,
      List.foldl_nil]
    rw [hq, hself, if_pos hmid]

theorem save_to_cache_ok (md5hex : String → String) (now : Int)
    (st : CacheState) (q a : String) (c : Option (List String))
    (srcs : Option (List CacheSource)) :
    save_to_cache noFails md5hex now st q a c srcs =
      { faiss := some ((st.faiss.getD []) ++
          [{ page_content := q, cache_key := some (get_cache_key md5hex q) }]),
        dynamo := alistSet st.dynamo (get_cache_key md5hex q)
          { cache_key := get_cache_key md5hex q, query := q, answer := a,
            contexts := c.getD [], sources := srcs.getD [],
            created_at := now, ttl := now + CACHE_TTL_HOURS * 3600 } } := by
  unfold save_to_cache save_to_cacheBody noFails
  cases h : st.faiss <;> simp [h]

theorem check_cache_model_none_uninit (dist : String → String → ℚ)
    (st : CacheState) (q : String) (h : st.faiss = none) :
    check_cache_model dist st q = none := by
  simp [check_cache_model, check_cache, check_cacheE, pureOps, h,
    Bind.bind, Except.bind, Pure.pure, Except.pure]

theorem check_cache_model_none_empty (dist : String → String → ℚ)
    (st : CacheState) (q : String) (h : st.faiss = some []) :
    check_cache_model dist st q = none := by
  simp [check_cache_model, check_cache, check_cacheE, pureOps, h, faissSearch,
    Bind.bind, Except.bind, Pure.pure, Except.pure]

theorem check_cache_model_below (dist : String → String → ℚ)
    (st : CacheState) (q : String) (idx : List Doc) (doc : Doc) (score : ℚ)
    (h : st.faiss = some idx) (hs : faissSearch dist idx q = [(doc, score)])
    (hlt : 1 - score < SIMILARITY_THRESHOLD) :
    check_cache_model dist st q = none := by
  simp [check_cache_model, check_cache, check_cacheE, pureOps, h, hs, hlt,
    Bind.bind, Except.bind, Pure.pure, Except.pure]

theorem check_cache_model_absent (dist : String → String → ℚ)
    (st : CacheState) (q : String) (idx : List Doc) (doc : Doc) (score : ℚ)
    (k : String) (h : st.faiss = some idx)
    (hs : faissSearch dist idx q = [(doc, score)])
    (hlt : ¬ 1 - score < SIMILARITY_THRESHOLD)
    (hk : doc.cache_key = some k) (hget : alistGet st.dynamo k = none) :
    check_cache_model dist st q = none := by
  simp [check_cache_model, check_cache, check_cacheE, pureOps, h, hs, hlt, hk,
    hget, Bind.bind, Except.bind, Pure.pure, Except.pure]

theorem check_cache_model_hit (dist : String → String → ℚ)
    (st : CacheState) (q : String) (idx : List Doc) (doc : Doc) (score : ℚ)
    (k : String) (item : Item) (h : st.faiss = some idx)
    (hs : faissSearch dist idx q = [(doc, score)])
    (hlt : ¬ 1 - score < SIMILARITY_THRESHOLD)
    (hk : doc.cache_key = some k) (hget : alistGet st.dynamo k = some item) :
    check_cache_model dist st q =
      some { answer := item.answer, sources := item.sources, cached := true,
             similar_query := doc.page_content,
             similarity := pyRound3 (1 - score) } := by
  simp [check_cache_model, check_cache, check_cacheE, pureOps, h, hs, hlt, hk,
    hget, Bind.bind, Except.bind, Pure.pure, Except.pure]

theorem pyRound3_one : pyRound3 ((1 : ℚ) - 0) = 1 := by
  unfold pyRound3
  norm_num

/-! ### The claims -/

/-- C1: for every reachable session state, 0 ≤ steps ≤ 5; for every run
from the initial state, at most 5 reasoning-engine invocations occur no
matter how long the run and no matter what decisions the engine returns
(so a 6th reasoning call is never issued); and once steps ≥ 5 the
orchestrator returns the stop notice without invoking the reasoning
engine — the result does not depend on the engine at all. -/
theorem C1_step_bound :
    (∀ (A : Agents) (ph : Phase) (s : State),
        Reach A ph s → 0 ≤ s.steps ∧ s.steps ≤ 5) ∧
    (∀ (A : Agents) (n : Nat) (messages : List Msg),
        (runCount A n { messages := messages, work := [], steps := 0 }).2 ≤ 5) ∧
    (∀ (d d' : List Msg → OrchestratorDecision) (s : State), 5 ≤ s.steps →
        orchestrator_node d s = orchestrator_node d' s) := by
  refine ⟨?_, ?_, ?_⟩
  · intro A ph s h
    exact (reach_inv A ph s h).1
  · intro A n messages
    simpa using runCount_le A n { messages := messages, work := [], steps := 0 }
  · intro d d' s h
    rw [orchestrator_node_stop d s h, orchestrator_node_stop d' s h]

theorem C1_step_bound_witness :
    (0 ≤ ({ messages := [Msg.human "hi"], work := [], steps := 0 } : State).steps ∧
      ({ messages := [Msg.human "hi"], work := [], steps := 0 } : State).steps ≤ 5) ∧
    (runCount exAgents 12 { messages := [.human "hi"], work := [], steps := 0 }).2 ≤ 5 ∧
    orchestrator_node (fun _ => decFc) exS5 = orchestrator_node (fun _ => decFin) exS5 :=
  ⟨C1_step_bound.1 exAgents .atOrch _ (Reach.init [Msg.human "hi"]),
   C1_step_bound.2.1 exAgents 12 [.human "hi"],
   C1_step_bound.2.2 (fun _ => decFc) (fun _ => decFin) exS5 (by decide)⟩

/-- C2: the claim that a lookup at or after the entry's expiry time is a
miss FAILS on the code: check_cache consults no clock and never reads the
stored ttl attribute, so the entry inserted at time 0 — whose ttl is
86400 = 0 + 24h — is still returned as a hit by a lookup performed at any
later time, 86400 included. (The table-creation script enables DynamoDB
TTL, but that deletion is asynchronous and best-effort, with no
at-expiry-time guarantee; the lookup path itself does no filtering.) -/
theorem C2_expired_entry_hit :
    (alistGet exSt1.dynamo (get_cache_key constHex "q")).map Item.ttl =
      some 86400 ∧
    check_cache_model dist0 exSt1 "q" =
      some { answer := "a", sources := [], cached := true, similar_query := "q",
             similarity := 1 } := by
  constructor
  · rfl
  · have h := check_cache_model_hit dist0 exSt1 "q"
      [{ page_content := "q", cache_key := some "cache-key-1" }]
      { page_content := "q", cache_key := some "cache-key-1" } 0 "cache-key-1"
      { cache_key := "cache-key-1", query := "q", answer := "a", contexts := [],
        sources := [], created_at := 0, ttl := 86400 }
      rfl rfl (by norm_num [SIMILARITY_THRESHOLD]) rfl rfl
    rw [h, pyRound3_one]

/-- C3: lookup over the pure store model returns none when the index is
uninitialized, none when the index holds no documents, none when the
nearest neighbor's similarity 1 - distance is below the 0.92 threshold,
none when the neighbor's key is absent from the value store, and otherwise
the stored entry together with the (rounded) similarity and the matched
query text. -/
theorem C3_lookup_cases :
    (∀ (dist : String → String → ℚ) (st : CacheState) (q : String),
        st.faiss = none → check_cache_model dist st q = none) ∧
    (∀ (dist : String → String → ℚ) (st : CacheState) (q : String),
        st.faiss = some [] → check_cache_model dist st q = none) ∧
    (∀ (dist : String → String → ℚ) (st : CacheState) (q : String)
        (idx : List Doc) (doc : Doc) (score : ℚ), st.faiss = some idx →
        faissSearch dist idx q = [(doc, score)] →
        1 - score < SIMILARITY_THRESHOLD → check_cache_model dist st q = none) ∧
    (∀ (dist : String → String → ℚ) (st : CacheState) (q : String)
        (idx : List Doc) (doc : Doc) (score : ℚ) (k : String),
        st.faiss = some idx → faissSearch dist idx q = [(doc, score)] →
        ¬ 1 - score < SIMILARITY_THRESHOLD → doc.cache_key = some k →
        alistGet st.dynamo k = none → check_cache_model dist st q = none) ∧
    (∀ (dist : String → String → ℚ) (st : CacheState) (q : String)
        (idx : List Doc) (doc : Doc) (score : ℚ) (k : String) (item : Item),
        st.faiss = some idx → faissSearch dist idx q = [(doc, score)] →
        ¬ 1 - score < SIMILARITY_THRESHOLD → doc.cache_key = some k →
        alistGet st.dynamo k = some item →
        check_cache_model dist st q =
          some { answer := item.answer, sources := item.sources, cached := true,
                 similar_query := doc.page_content,
                 similarity := pyRound3 (1 - score) }) :=
  ⟨check_cache_model_none_uninit, check_cache_model_none_empty,
   check_cache_model_below, check_cache_model_absent, check_cache_model_hit⟩

theorem C3_lookup_cases_witness :
    check_cache_model dist0 exSt0 "q" = none ∧
    check_cache_model dist0 exStEmptyIdx "q" = none ∧
    check_cache_model dist0 exSt1 "zzz" = none ∧
    check_cache_model dist0 exStDangling "q" = none ∧
    check_cache_model dist0 exSt1 "q" =
      some { answer := "a", sources := [], cached := true, similar_query := "q",
             similarity := pyRound3 (1 - 0) } :=
  ⟨C3_lookup_cases.1 dist0 exSt0 "q" rfl,
   C3_lookup_cases.2.1 dist0 exStEmptyIdx "q" rfl,
   C3_lookup_cases.2.2.1 dist0 exSt1 "zzz"
     [{ page_content := "q", cache_key := some "cache-key-1" }]
     { page_content := "q", cache_key := some "cache-key-1" } 1 rfl rfl
     (by norm_num [SIMILARITY_THRESHOLD]),
   C3_lookup_cases.2.2.2.1 dist0 exStDangling "q"
     [{ page_content := "q", cache_key := some "missing" }]
     { page_content := "q", cache_key := some "missing" } 0 "missing"
     rfl rfl (by norm_num [SIMILARITY_THRESHOLD]) rfl rfl,
   C3_lookup_cases.2.2.2.2 dist0 exSt1 "q"
     [{ page_content := "q", cache_key := some "cache-key-1" }]
     { page_content := "q", cache_key := some "cache-key-1" } 0 "cache-key-1"
     { cache_key := "cache-key-1", query := "q", answer := "a", contexts := [],
       sources := [], created_at := 0, ttl := 86400 }
     rfl rfl (by norm_num [SIMILARITY_THRESHOLD]) rfl rfl⟩

/-- C4: on a non-terminal session (steps < 5) every orchestrator call
returns steps + 1 exactly; on the stop branch steps is unchanged; and the
loop is terminal — no capability is routed — once steps ≥ 5 or the
decision's action is FINISH. -/
theorem C4_steps_plus_one :
    (∀ (d : List Msg → OrchestratorDecision) (s : State), ¬ 5 ≤ s.steps →
        (orchestrator_node d s).steps = s.steps + 1) ∧
    (∀ (d : List Msg → OrchestratorDecision) (s : State), 5 ≤ s.steps →
        (orchestrator_node d s).steps = s.steps) ∧
    (∀ (d : List Msg → OrchestratorDecision) (s : State), noPending s.work →
        (5 ≤ s.steps ∨ (d (messages_to_planner s)).action = "FINISH") →
        route (s.merge (orchestrator_node d s)).work = none) := by
  refine ⟨?_, ?_, ?_⟩
  · intro d s h
    rw [orchestrator_node_steps]
    simp [h]
  · intro d s h
    rw [orchestrator_node_steps]
    simp [h]
  · intro d s hnp hterm
    by_cases h5 : 5 ≤ s.steps
    · show route (orchestrator_node d s).work = none
      rw [orchestrator_node_stop d s h5]
      exact route_none_of_noPending _ hnp
    · rcases hterm with h5' | hfin
      · exact absurd h5' h5
      · show route (orchestrator_node d s).work = none
        unfold orchestrator_node
        simp only [ge_iff_le, h5, if_false]
        rw [orchestrator_decide_work_finish _ _ _ hfin]
        exact route_none_of_noPending _ hnp

theorem C4_steps_plus_one_witness :
    (orchestrator_node (fun _ => decFc) exInit).steps = exInit.steps + 1 ∧
    (orchestrator_node (fun _ => decFc) exS5).steps = exS5.steps ∧
    route (exInit.merge (orchestrator_node (fun _ => decFin) exInit)).work = none :=
  ⟨C4_steps_plus_one.1 (fun _ => decFc) exInit (by decide),
   C4_steps_plus_one.2.1 (fun _ => decFc) exS5 (by decide),
   C4_steps_plus_one.2.2 (fun _ => decFin) exInit (by decide) (Or.inr rfl)⟩

/-- C5: every state the driver reaches just after an orchestrator step has
at most one pending-delegation marker; every state at which the
orchestrator fires has none (the driver's call node cleared it before the
next step); and each capability call node removes its own pending marker
from the work map it returns. -/
theorem C5_at_most_one_pending :
    (∀ (A : Agents) (s : State), Reach A .afterOrch s → pendingCount s.work ≤ 1) ∧
    (∀ (A : Agents) (s : State), Reach A .atOrch s → pendingCount s.work = 0) ∧
    (∀ (f : ForecastPayload → WorkVal) (s : State) (r : NodeRet),
        call_forecasting_node f s = some r →
        alistGet r.work "next_forecasting_payload" = none) ∧
    (∀ (a : WorkVal → WorkVal) (s : State),
        alistGet (call_rag_node a s).work "next_rag_query" = none) ∧
    (∀ (a : WorkVal → WorkVal) (s : State),
        alistGet (call_db_node a s).work "next_db_query" = none) := by
  refine ⟨?_, ?_, ?_, ?_, ?_⟩
  · intro A s h
    exact (reach_inv A _ s h).2.2 rfl
  · intro A s h
    exact noPending_count _ ((reach_inv A _ s h).2.1 rfl)
  · intro f s r h
    exact (call_forecasting_node_spec f s r h).2.1
  · intro a s
    exact (call_rag_node_spec a s).2.1
  · intro a s
    exact (call_db_node_spec a s).2.1

theorem C5_at_most_one_pending_witness :
    pendingCount (exInit.merge (orchestrator_node exAgents.decide exInit)).work ≤ 1 ∧
    pendingCount ({ messages := [Msg.human "hi"], work := [], steps := 0 } : State).work = 0 ∧
    alistGet ((call_forecasting_node exFAgent exSF).getD
      { messages := [], work := [], steps := 0 }).work "next_forecasting_payload" = none ∧
    alistGet (call_rag_node exRAgent exSF).work "next_rag_query" = none ∧
    alistGet (call_db_node exRAgent exSF).work "next_db_query" = none :=
  ⟨C5_at_most_one_pending.1 exAgents _ (Reach.orch (Reach.init [Msg.human "hi"])),
   C5_at_most_one_pending.2.1 exAgents _ (Reach.init [Msg.human "hi"]),
   C5_at_most_one_pending.2.2.1 exFAgent exSF _ rfl,
   C5_at_most_one_pending.2.2.2.1 exRAgent exSF,
   C5_at_most_one_pending.2.2.2.2 exRAgent exSF⟩

/-- C6: whenever orchestrator_node runs with steps ≥ 5, the returned node
value is exactly the stop notice as the only appended message, the input
work map unchanged (no field added, removed or modified), and the input
step counter; with no pending marker in that work map, the driver routes
nowhere — the outcome is a Finished terminal state. -/
theorem C6_stop_notice_frame (d : List Msg → OrchestratorDecision) (s : State)
    (h : 5 ≤ s.steps) :
    orchestrator_node d s =
      { messages := [.ai stopNotice], work := s.work, steps := s.steps } ∧
    (noPending s.work → route (s.merge (orchestrator_node d s)).work = none) := by
  refine ⟨orchestrator_node_stop d s h, ?_⟩
  intro hnp
  show route (orchestrator_node d s).work = none
  rw [orchestrator_node_stop d s h]
  exact route_none_of_noPending _ hnp

theorem C6_stop_notice_frame_witness :
    orchestrator_node (fun _ => decFc) exS5 =
      { messages := [.ai stopNotice], work := exS5.work, steps := exS5.steps } ∧
    (noPending exS5.work → route (exS5.merge (orchestrator_node (fun _ => decFc) exS5)).work = none) :=
  C6_stop_notice_frame (fun _ => decFc) exS5 (by decide)

/-- C7: the cache never propagates failure: whenever any internal step of
the lookup body raises, check_cache returns none (fail-open, a miss); and
whenever any internal step of the insert body raises with the stores
mutated up to that point, save_to_cache returns that state normally — no
exception escapes (fail-silent). -/
theorem C7_cache_failure_policy :
    (∀ (ι : Type) (ops : CacheOps ι) (q : String) (e : Unit),
        check_cacheE ops q = .error e → check_cache ops q = none) ∧
    (∀ (f : SaveFails) (md5hex : String → String) (now : Int) (st : CacheState)
        (q a : String) (c : Option (List String))
        (srcs : Option (List CacheSource)) (st' : CacheState),
        save_to_cacheBody f md5hex now st q a c srcs = .inl st' →
        save_to_cache f md5hex now st q a c srcs = st') := by
  constructor
  · intro ι ops q e h
    unfold check_cache
    rw [h]
  · intro f md5hex now st q a c srcs st' h
    unfold save_to_cache
    rw [h]

theorem C7_cache_failure_policy_witness :
    check_cache failOps "What is NET_500?" = none ∧
    save_to_cache
      { put_item := true, load_index := false, embed_step := false,
        save_index := false } constHex 0 exSt0 "q" "a" none none = exSt0 :=
  ⟨C7_cache_failure_policy.1 Unit failOps "What is NET_500?" () rfl,
   C7_cache_failure_policy.2 _ constHex 0 exSt0 "q" "a" none none exSt0 rfl⟩

/-- C8: inserting (q, a, ctx, src) and immediately looking q up (no
intervening insert, against an embedding model in which the identical text
is at distance 0 and every previously indexed text at positive distance)
returns the just-stored entry: answer a, sources src, similarity 1 — the
self-match sits above the 0.92 gate. -/
theorem C8_insert_then_lookup (dist : String → String → ℚ)
    (md5hex : String → String) (st : CacheState) (q a : String)
    (ctx : List String) (srcs : List CacheSource) (now : Int)
    (hself : dist q q = 0)
    (hpos : ∀ d ∈ st.faiss.getD [], 0 < dist q d.page_content) :
    check_cache_model dist
      (save_to_cache noFails md5hex now st q a (some ctx) (some srcs)) q =
      some { answer := a, sources := srcs, cached := true, similar_query := q,
             similarity := 1 } := by
  rw [save_to_cache_ok]
  have hs := faissSearch_self dist q
    { page_content := q, cache_key := some (get_cache_key md5hex q) } rfl
    (st.faiss.getD []) hself hpos
  have hlt : ¬ (1 : ℚ) - 0 < SIMILARITY_THRESHOLD := by
    norm_num [SIMILARITY_THRESHOLD]
  have h := check_cache_model_hit dist
    { faiss := some ((st.faiss.getD []) ++
        [{ page_content := q, cache_key := some (get_cache_key md5hex q) }]),
      dynamo := alistSet st.dynamo (get_cache_key md5hex q)
        { cache_key := get_cache_key md5hex q, query := q, answer := a,
          contexts := (some ctx).getD [], sources := (some srcs).getD [],
          created_at := now, ttl := now + CACHE_TTL_HOURS * 3600 } }
    q ((st.faiss.getD []) ++
        [{ page_content := q, cache_key := some (get_cache_key md5hex q) }])
    { page_content := q, cache_key := some (get_cache_key md5hex q) } 0
    (get_cache_key md5hex q)
    { cache_key := get_cache_key md5hex q, query := q, answer := a,
      contexts := (some ctx).getD [], sources := (some srcs).getD [],
      created_at := now, ttl := now + CACHE_TTL_HOURS * 3600 }
    rfl hs hlt rfl (alistGet_set_self _ _ _)
  rw [h, pyRound3_one]
  rfl

theorem C8_insert_then_lookup_witness :
    check_cache_model dist0
      (save_to_cache noFails constHex 5 exSt0 "Hello" "ans"
        (some ["ctx-1"]) (some [{ source := "doc.pdf", page := "3" }])) "Hello" =
      some { answer := "ans", sources := [{ source := "doc.pdf", page := "3" }],
             cached := true, similar_query := "Hello", similarity := 1 } :=
  C8_insert_then_lookup dist0 constHex exSt0 "Hello" "ans" ["ctx-1"]
    [{ source := "doc.pdf", page := "3" }] 5 rfl (by simp [exSt0])

/-- C9: when the decision's action is CALL_FORECASTING with no payload
supplied, the orchestrator writes the documented default dict
(horizon_days = 2, no start_date key) under next_forecasting_payload; for
CALL_RAG and CALL_DB with no supplied query it writes the corresponding
literal fallback query string. -/
theorem C9_default_payloads (d : List Msg → OrchestratorDecision) (s : State)
    (h5 : ¬ 5 ≤ s.steps) :
    ((d (messages_to_planner s)).action = "CALL_FORECASTING" →
      (d (messages_to_planner s)).forecasting_payload = none →
      alistGet (orchestrator_node d s).work "next_forecasting_payload" =
        some (.vpd 2 none)) ∧
    ((d (messages_to_planner s)).action = "CALL_RAG" →
      (d (messages_to_planner s)).rag_query = none →
      alistGet (orchestrator_node d s).work "next_rag_query" =
        some (.vstr "What information do you need?")) ∧
    ((d (messages_to_planner s)).action = "CALL_DB" →
      (d (messages_to_planner s)).db_query = none →
      alistGet (orchestrator_node d s).work "next_db_query" =
        some (.vstr "Get ticket count from today till 2 days")) := by
  have hnode : orchestrator_node d s =
      orchestrator_decide s.work s.steps (d (messages_to_planner s)) := by
    unfold orchestrator_node
    simp only [ge_iff_le, h5, if_false]
  refine ⟨?_, ?_, ?_⟩
  · intro ha hp
    rw [hnode, orchestrator_decide_work_forecast _ _ _ ha]
    simp only [hp]
    exact alistGet_set_self _ _ _
  · intro ha hq
    rw [hnode, orchestrator_decide_work_rag _ _ _ ha]
    simp only [hq, pyOrStr]
    exact alistGet_set_self _ _ _
  · intro ha hq
    rw [hnode, orchestrator_decide_work_db _ _ _ ha]
    simp only [hq, pyOrStr]
    exact alistGet_set_self _ _ _

theorem C9_default_payloads_witness :
    alistGet (orchestrator_node (fun _ => decFc) exInit).work
      "next_forecasting_payload" = some (.vpd 2 none) ∧
    alistGet (orchestrator_node (fun _ => decRag) exInit).work
      "next_rag_query" = some (.vstr "What information do you need?") ∧
    alistGet (orchestrator_node (fun _ => decDb) exInit).work
      "next_db_query" = some (.vstr "Get ticket count from today till 2 days") :=
  ⟨(C9_default_payloads (fun _ => decFc) exInit (by decide)).1 rfl rfl,
   (C9_default_payloads (fun _ => decRag) exInit (by decide)).2.1 rfl rfl,
   (C9_default_payloads (fun _ => decDb) exInit (by decide)).2.2 rfl rfl⟩

/-- C10: a request whose query is empty or all-whitespace is rejected with
HTTP 400 before the rate limiter is consulted (the rate table is returned
untouched even when the session is over its limit) and before any
orchestration runs (the result does not depend on the graph at all, and
the world holding session and cache state is returned unchanged). -/
theorem C10_empty_query_rejected {Ω : Type}
    (run : String → String → Ω → Ω × State) (ω : Ω) (req : RateTable)
    (now : Int) (request : QueryRequest)
    (h : request.query.toList.all Char.isWhitespace = true) :
    process_query run ω req now request =
      ((ω, req), .error (400, "Query cannot be empty")) := by
  unfold process_query
  rw [if_pos h]

theorem C10_empty_query_rejected_witness :
    process_query run0 () [("u", (0, 10))] 999 { query := "   ", session_id := "u" } =
      (((), [("u", (0, 10))]), .error (400, "Query cannot be empty")) :=
  C10_empty_query_rejected run0 () [("u", (0, 10))] 999
    { query := "   ", session_id := "u" } (by decide)

end MultiAgentAnalyst
